import Mathlib

/-!
Verification of the test-relevance inference engine of the
Dynamic-Test-Identifier-And-Runner repository.

The engine lives in two parallel JavaScript implementations:
`TestAnalysisService` (src/background/services/ — the modular service) and
the background worker class `TestAnalyzer`.  Both are embedded here as pure
Lean functions over explicit data.  JavaScript strings are represented as
Lean `String` at the interfaces and as `List Char` inside the helpers;
JavaScript confidence floats (1.0 / 0.9 / 0.6) are represented on the
integer percent scale (100 / 90 / 60); `Math.round` on a ratio a/b is
represented exactly on naturals as `(2*a + b) / (2*b)`.
-/

/-! ## String helpers (JavaScript string primitives) -/

/-- Boolean prefix test on character lists. -/
def isPrefixL : List Char → List Char → Bool
  | [], _ => true
  | _ :: _, [] => false
  | a :: as, b :: bs => a == b && isPrefixL as bs

/-- JavaScript `hay.includes(needle)`: substring containment. -/
def containsL : List Char → List Char → Bool
  | [], needle => needle.isEmpty
  | h :: t, needle => isPrefixL needle (h :: t) || containsL t needle

/-- JavaScript `s.includes(sub)` on `String`. -/
def strContains (s sub : String) : Bool :=
  containsL s.data sub.data

/-- JavaScript `s.endsWith(suf)`. -/
def strEndsWith (s suf : String) : Bool :=
  isPrefixL suf.data.reverse s.data.reverse

/-- JavaScript `s.toLowerCase()` (ASCII, which is all the code feeds it). -/
def lowerL (s : List Char) : List Char :=
  s.map Char.toLower

/-- Lowercasing on `String`. -/
def lowerStr (s : String) : String :=
  ⟨lowerL s.data⟩

/-- JavaScript `s.split(sep)` for a one-character separator: `""` splits to
`[""]`, separators at the ends produce empty fields. -/
def splitOnChar (c : Char) : List Char → List (List Char)
  | [] => [[]]
  | x :: xs =>
    let r := splitOnChar c xs
    if x == c then [] :: r
    else
      match r with
      | [] => [[x]]
      | h :: t => (x :: h) :: t

/-- JavaScript `parts.join(sep)` for a one-character separator. -/
def joinWith (sep : Char) : List (List Char) → List Char
  | [] => []
  | [s] => s
  | s :: rest => s ++ sep :: joinWith sep rest

/-- JavaScript `arr.indexOf(v)` returning `none` for -1. -/
def jsIndexOf (tgt : List Char) : List (List Char) → Option Nat
  | [] => none
  | s :: ss => if s == tgt then some 0 else (jsIndexOf tgt ss).map (· + 1)

/-- JavaScript `arr[i] = v` on an immutable list (out of range: unchanged,
which the embedded code never relies on). -/
def setAt : Nat → List Char → List (List Char) → List (List Char)
  | _, _, [] => []
  | 0, v, _ :: xs => v :: xs
  | Nat.succ j, v, x :: xs => x :: setAt j v xs

/-- JavaScript `Math.round(a / b)` for natural `a`, positive natural `b`,
computed exactly: `floor(a/b + 1/2)`. -/
def natRound (a b : Nat) : Nat :=
  (2 * a + b) / (2 * b)

/-- Fuel-driven core of `replaceAll`; every step consumes at least one
input character, so fuel equal to the input length is always enough. -/
def replaceAllF : Nat → Char → List Char → List Char → List Char → List Char
  | 0, _, _, _, s => s
  | Nat.succ n, p, ps, rep, s =>
    match s with
    | [] => []
    | c :: cs =>
      if isPrefixL (p :: ps) (c :: cs)
      then rep ++ replaceAllF n p ps rep (cs.drop ps.length)
      else c :: replaceAllF n p ps rep cs

/-- Global leftmost non-overlapping `String.replace` of the pattern
`p :: ps` by `rep`, as JavaScript `str.replace(/pat/g, rep)` performs on a
fixed pattern. -/
def replaceAll (p : Char) (ps : List Char) (rep : List Char) (s : List Char) : List Char :=
  replaceAllF s.length p ps rep s

/-! ## Regular expressions, restricted to the constructs the glob compilers
emit: escaped literals `\c`, the class `[^/]`, the any-character dot, the
postfix `*`, plain literals. -/

/-- Atoms of the emitted regexes. -/
inductive RAtom where
  | lit (c : Char)
  | anyChar
  | nonSlash
deriving DecidableEq, Repr

/-- A regex element: a single atom or a starred atom. -/
inductive RTok where
  | one (a : RAtom)
  | star (a : RAtom)
deriving DecidableEq, Repr

/-- Does a single atom match a character. -/
def atomMatch : RAtom → Char → Bool
  | RAtom.lit c, d => c == d
  | RAtom.anyChar, _ => true
  | RAtom.nonSlash, d => d != '/'

/-- Parse an emitted regex string into elements.  Characters that are not
part of a recognised construct are literals, as in a regex engine. -/
def parseRegex : List Char → List RTok
  | [] => []
  | '\\' :: c :: '*' :: rest => RTok.star (RAtom.lit c) :: parseRegex rest
  | '\\' :: c :: rest => RTok.one (RAtom.lit c) :: parseRegex rest
  | '[' :: '^' :: '/' :: ']' :: '*' :: rest => RTok.star RAtom.nonSlash :: parseRegex rest
  | '[' :: '^' :: '/' :: ']' :: rest => RTok.one RAtom.nonSlash :: parseRegex rest
  | '.' :: '*' :: rest => RTok.star RAtom.anyChar :: parseRegex rest
  | '.' :: rest => RTok.one RAtom.anyChar :: parseRegex rest
  | c :: '*' :: rest => RTok.star (RAtom.lit c) :: parseRegex rest
  | c :: rest => RTok.one (RAtom.lit c) :: parseRegex rest

/-- Fuel-driven core of `reMatchFrom`; each step lowers the combined
length of elements and input, so fuel beyond that sum is always enough. -/
def reMatchFromF : Nat → List RTok → List Char → Bool
  | 0, _, _ => false
  | Nat.succ n, ts, s =>
    match ts, s with
    | [], _ => true
    | RTok.one _ :: _, [] => false
    | RTok.one a :: ts', c :: cs => atomMatch a c && reMatchFromF n ts' cs
    | RTok.star _ :: ts', [] => reMatchFromF n ts' []
    | RTok.star a :: ts', c :: cs =>
        reMatchFromF n ts' (c :: cs) || (atomMatch a c && reMatchFromF n (RTok.star a :: ts') cs)

/-- True when some prefix of the input matches the whole element list
(the tail may be left over). -/
def reMatchFrom (ts : List RTok) (s : List Char) : Bool :=
  reMatchFromF (ts.length + s.length + 1) ts s

/-- JavaScript `regex.test(s)` for an unanchored regex: a match may start at
any position and needs not reach the end. -/
def reSearch (ts : List RTok) : List Char → Bool
  | [] => reMatchFrom ts []
  | c :: cs => reMatchFrom ts (c :: cs) || reSearch ts cs

/-- Fuel-driven core of `reMatchFull`. -/
def reMatchFullF : Nat → List RTok → List Char → Bool
  | 0, _, _ => false
  | Nat.succ n, ts, s =>
    match ts, s with
    | [], [] => true
    | [], _ :: _ => false
    | RTok.one _ :: _, [] => false
    | RTok.one a :: ts', c :: cs => atomMatch a c && reMatchFullF n ts' cs
    | RTok.star _ :: ts', [] => reMatchFullF n ts' []
    | RTok.star a :: ts', c :: cs =>
        reMatchFullF n ts' (c :: cs) || (atomMatch a c && reMatchFullF n (RTok.star a :: ts') cs)

/-- JavaScript `regex.test(s)` for a `^...$`-anchored regex: the whole input
must match. -/
def reMatchFull (ts : List RTok) (s : List Char) : Bool :=
  reMatchFullF (ts.length + s.length + 1) ts s

/-! ## The two glob-to-regex compilers of the source -/

/-- `TestAnalysisService._globToRegex`: replace `**` by `.*`, then `*` by
`[^/]*`, then escape every dot — in that order, so the dots introduced by
the first step are escaped by the last — and build an unanchored regex. -/
def globToRegexStr (pat : String) : List Char :=
  replaceAll '.' [] ('\\' :: ['.'])
    (replaceAll '*' [] ('[' :: '^' :: '/' :: ']' :: ['*'])
      (replaceAll '*' ['*'] ('.' :: ['*']) pat.data))

/-- Acceptance of a path by `TestAnalysisService`'s compiled matcher
(`regex.test` on the unanchored regex). -/
def globTest (pat path : String) : Bool :=
  reSearch (parseRegex (globToRegexStr pat)) path.data

/-- The overriding `TestAnalyzer.globToRegex`: the same replacement chain
plus `?` to `.` before the dot-escaping step, anchored with `^...$`. -/
def globToRegexStr2 (pat : String) : List Char :=
  replaceAll '.' [] ('\\' :: ['.'])
    (replaceAll '?' [] ['.']
      (replaceAll '*' [] ('[' :: '^' :: '/' :: ']' :: ['*'])
        (replaceAll '*' ['*'] ('.' :: ['*']) pat.data)))

/-- Acceptance of a path by the overriding `TestAnalyzer.globToRegex`
matcher (full anchored match). -/
def globTest2 (pat path : String) : Bool :=
  reMatchFull (parseRegex (globToRegexStr2 pat)) path.data

/-! ## Glob semantics as the specification words them -/

/-- Tokens of the specified glob language: a literal character, `*` (any
characters except the separator), and `**` (any number of path segments,
including zero).  `midSeg` is internal to the matcher: inside a segment
being skipped by `**`. -/
inductive GTok where
  | lit (c : Char)
  | starSeg
  | anySegs
  | midSeg
deriving DecidableEq, Repr

/-- Parse a glob: `**/` and `**` give the multi-segment wildcard, `*` the
in-segment wildcard, everything else (dots included) is literal. -/
def parseGlob : List Char → List GTok
  | [] => []
  | '*' :: '*' :: '/' :: rest => GTok.anySegs :: parseGlob rest
  | '*' :: '*' :: rest => GTok.anySegs :: parseGlob rest
  | '*' :: rest => GTok.starSeg :: parseGlob rest
  | c :: rest => GTok.lit c :: parseGlob rest

/-- Matcher for the specified glob semantics: `anySegs` consumes zero or
more complete `segment/` groups, `starSeg` consumes any run of
non-separator characters, literals consume themselves; the whole path must
be consumed. -/
def gMatchF : Nat → List GTok → List Char → Bool
  | 0, _, _ => false
  | Nat.succ n, ts, s =>
    match ts, s with
    | [], [] => true
    | [], _ :: _ => false
    | GTok.lit _ :: _, [] => false
    | GTok.lit c :: ts', d :: s' => c == d && gMatchF n ts' s'
    | GTok.starSeg :: ts', [] => gMatchF n ts' []
    | GTok.starSeg :: ts', c :: cs =>
        gMatchF n ts' (c :: cs) || (c != '/' && gMatchF n (GTok.starSeg :: ts') cs)
    | GTok.anySegs :: ts', [] => gMatchF n ts' []
    | GTok.anySegs :: ts', c :: cs =>
        gMatchF n ts' (c :: cs) ||
          (if c == '/' then gMatchF n (GTok.anySegs :: ts') cs
           else gMatchF n (GTok.midSeg :: ts') cs)
    | GTok.midSeg :: _, [] => false
    | GTok.midSeg :: ts', c :: cs =>
        if c == '/' then gMatchF n (GTok.anySegs :: ts') cs else gMatchF n (GTok.midSeg :: ts') cs

/-- The matcher for the specified glob semantics, with fuel ample for every
reachable state. -/
def gMatch (ts : List GTok) (s : List Char) : Bool :=
  gMatchF (ts.length + s.length + 1) ts s

/-- Acceptance of a path under the glob semantics stated by the
specification (`**` = any number of segments including zero, `*` = any
characters except the separator, dots literal). -/
def specGlobMatch (pat path : String) : Bool :=
  gMatch (parseGlob pat.data) path.data

/-! ## The pattern registry (shared/constants/patterns.js, `TEST_PATTERNS`) -/

/-- One language profile of the registry: extension list, test-file glob
patterns, framework labels. -/
structure LangPatterns where
  language : String
  extensions : List String
  patterns : List String
  frameworks : List String
deriving DecidableEq, Repr

/-- The `TEST_PATTERNS` constant, in object-key order. -/
def TEST_PATTERNS : List LangPatterns := [
  { language := "javascript", extensions := ["js", "jsx", "mjs"],
    patterns := ["**/*.test.js", "**/*.spec.js", "**/test/**/*.js", "**/tests/**/*.js",
      "**/__tests__/**/*.js"],
    frameworks := ["jest", "mocha", "jasmine", "vitest"] },
  { language := "typescript", extensions := ["ts", "tsx"],
    patterns := ["**/*.test.ts", "**/*.spec.ts", "**/test/**/*.ts", "**/tests/**/*.ts",
      "**/__tests__/**/*.ts"],
    frameworks := ["jest", "mocha", "jasmine", "vitest"] },
  { language := "python", extensions := ["py"],
    patterns := ["**/test_*.py", "**/*_test.py", "**/tests/**/*.py", "**/test/**/*.py"],
    frameworks := ["pytest", "unittest", "nose2"] },
  { language := "java", extensions := ["java"],
    patterns := ["**/src/test/**/*.java", "**/*Test.java", "**/*Tests.java", "**/test/**/*.java"],
    frameworks := ["junit", "testng", "spock"] },
  { language := "csharp", extensions := ["cs"],
    patterns := ["**/*.Test.cs", "**/*.Tests.cs", "**/test/**/*.cs", "**/tests/**/*.cs"],
    frameworks := ["nunit", "mstest", "xunit"] },
  { language := "go", extensions := ["go"],
    patterns := ["**/*_test.go"],
    frameworks := ["testing", "testify", "ginkgo"] },
  { language := "php", extensions := ["php"],
    patterns := ["**/tests/**/*.php", "**/*Test.php", "**/test/**/*.php"],
    frameworks := ["phpunit", "pest", "codeception"] },
  { language := "ruby", extensions := ["rb"],
    patterns := ["**/spec/**/*.rb", "**/*_spec.rb", "**/test/**/*.rb", "**/*_test.rb"],
    frameworks := ["rspec", "minitest", "test-unit"] },
  { language := "kotlin", extensions := ["kt", "kts"],
    patterns := ["**/src/test/**/*.kt", "**/*Test.kt", "**/*Tests.kt"],
    frameworks := ["junit", "spek", "kotest"] }]

/-! ## TestAnalysisService (background/services/TestAnalysisService.js,
constructed with the default `TEST_PATTERNS`) -/

/-- An element of `prData.changedFiles`.  The JavaScript objects carry
`filename` (or `path`), `additions`, `deletions`, `changes`; absent numeric
fields read as 0 through the `|| 0` defaults. -/
structure ChangedFile where
  filename : String
  additions : Nat := 0
  deletions : Nat := 0
  changes : Nat := 0
deriving DecidableEq, Repr

/-- A test-candidate object as the service builds it; `type` is one of
`"existing"`, `"related"`, `"suggested"`; `confidence` is on the percent
scale (JavaScript 1.0 / 0.9 / 0.6 become 100 / 90 / 60); `sourceFile` is
`none` where the JavaScript object has no such property. -/
structure TestCandidate where
  path : String
  type : String
  sourceFile : Option String := none
  language : String := "unknown"
  confidence : Nat
  reason : String
deriving DecidableEq, Repr

/-- A classified source file with its change metadata. -/
structure SourceFile where
  path : String
  language : String
  additions : Nat
  deletions : Nat
  changes : Nat
deriving DecidableEq, Repr

/-- One entry of `_generateRecommendations`' output. -/
structure Recommendation where
  rtype : String
  severity : String
  file : String
  message : String
  suggestion : String
deriving DecidableEq, Repr

/-- One entry of `_analyzeRisk`'s per-file risk list. -/
structure RiskEntry where
  file : String
  risk : Nat
  changes : Nat
deriving DecidableEq, Repr

/-- The `_analyzeRisk` result. -/
structure RiskAnalysis where
  totalRisk : Nat
  risks : List RiskEntry
deriving DecidableEq, Repr

/-- The `statistics` block of the analysis result. -/
structure AnalysisStatistics where
  totalFiles : Nat
  sourceFiles : Nat
  testFiles : Nat
  relatedTests : Nat
deriving DecidableEq, Repr

/-- The object `identifyTests` returns.  The early-return branch for an
empty input carries only `identifiedTests`, `coverage` and
`recommendations`; the fields absent there are `Option`s set to `none`. -/
structure AnalysisResult where
  identifiedTests : List TestCandidate
  existingTests : Option (List TestCandidate) := none
  relatedTests : Option (List TestCandidate) := none
  sourceFiles : Option (List SourceFile) := none
  coverage : Nat
  recommendations : List Recommendation
  riskAnalysis : Option RiskAnalysis := none
  statistics : Option AnalysisStatistics := none
deriving DecidableEq, Repr

/-- The strict pass of `_isTestFile`: some glob of some language profile,
compiled by `_globToRegex`, accepts the filename. -/
def isTestFilePatterns (filename : String) : Bool :=
  TEST_PATTERNS.any fun lp => lp.patterns.any fun pattern => globTest pattern filename

/-- `TestAnalysisService._isTestFile`: the strict pattern pass, then the
common-indicator fallback on the lowercased filename. -/
def isTestFile (filename : String) : Bool :=
  isTestFilePatterns filename ||
    (strContains (lowerStr filename) "test" || strContains (lowerStr filename) "spec" ||
      strContains (lowerStr filename) "__tests__")

/-- The code-file extension list of `_isCodeFile`. -/
def codeExtensions : List String :=
  [".js", ".jsx", ".ts", ".tsx", ".py", ".java", ".cs",
   ".go", ".php", ".rb", ".rs", ".kt", ".cpp", ".c", ".h"]

/-- The ignored-path substrings of `_isCodeFile`. -/
def ignoredPaths : List String :=
  ["node_modules", "vendor", "dist", "build", ".git",
   "package-lock.json", "yarn.lock"]

/-- `TestAnalysisService._isCodeFile`: reject ignored-path substrings
first, then require a code extension. -/
def isCodeFile (filename : String) : Bool :=
  if ignoredPaths.any fun ig => strContains filename ig then false
  else codeExtensions.any fun ext => strEndsWith filename ext

/-- `TestAnalysisService._detectLanguage`: lowercased last dot-component
against each profile's extension list, first profile wins. -/
def detectLanguage (filename : String) : String :=
  let ext := lowerL ((splitOnChar '.' filename.data).getLastD [])
  match TEST_PATTERNS.find? fun lp => lp.extensions.any fun e => e.data == ext with
  | some lp => lp.language
  | none => "unknown"

/-- The `src`-mirror step of `_generateTestPaths` as the code performs it:
`parts.indexOf('src')`, then two assignments into a copy of the array. -/
def srcMirrorPaths (parts : List (List Char)) : List (List Char) :=
  match jsIndexOf "src".data parts with
  | some srcIndex =>
      [joinWith '/' (setAt srcIndex "test".data parts),
       joinWith '/' (setAt srcIndex "tests".data parts)]
  | none => []

/-- `TestAnalysisService._generateTestPaths`: the six convention-based
candidates in push order, then the `src`-segment mirrors when a segment
equals `src`. -/
def generateTestPaths (sourcePath : String) : List String :=
  let parts := splitOnChar '/' sourcePath.data
  let filename := parts.getLastD []
  let dir := joinWith '/' parts.dropLast
  let nameWithoutExt := joinWith '.' (splitOnChar '.' filename).dropLast
  let ext := (splitOnChar '.' filename).getLastD []
  ([dir ++ "/".data ++ nameWithoutExt ++ ".test.".data ++ ext,
    dir ++ "/".data ++ nameWithoutExt ++ ".spec.".data ++ ext,
    dir ++ "/__tests__/".data ++ filename,
    dir ++ "/__tests__/".data ++ nameWithoutExt ++ ".test.".data ++ ext,
    dir ++ "/tests/".data ++ filename,
    dir ++ "/test/".data ++ filename] ++ srcMirrorPaths parts).map fun l => ⟨l⟩

/-- `TestAnalysisService._identifyExistingTests`: every changed file whose
name passes `_isTestFile` becomes an `existing` candidate, confidence 1.0. -/
def identifyExistingTests (changedFiles : List ChangedFile) : List TestCandidate :=
  changedFiles.filterMap fun f =>
    if isTestFile f.filename then
      some { path := f.filename, type := "existing", language := detectLanguage f.filename,
             confidence := 100, reason := "Direct test file modification" }
    else none

/-- `TestAnalysisService._identifySourceFiles`: the changed files that are
code files but not test files, with their change metadata. -/
def identifySourceFiles (changedFiles : List ChangedFile) : List SourceFile :=
  (changedFiles.filter fun f => !isTestFile f.filename && isCodeFile f.filename).map fun f =>
    { path := f.filename, language := detectLanguage f.filename,
      additions := f.additions, deletions := f.deletions, changes := f.changes }

/-- `TestAnalysisService._findRelatedTests`: per source file, a `related`
candidate (confidence 0.9) for every generated path present among the
changed files, then — the guard only checks that the generated list is
nonempty, despite the comment "If no direct test found" — a `suggested`
candidate (confidence 0.6) for the first generated path. -/
def relatedForSource (sourceFile : SourceFile) (allFiles : List ChangedFile) :
    List TestCandidate :=
  let possibleTestPaths := generateTestPaths sourceFile.path
  (possibleTestPaths.filterMap fun testPath =>
     if allFiles.any fun f => f.filename == testPath then
       some { path := testPath, type := "related", sourceFile := some sourceFile.path,
              language := sourceFile.language, confidence := 90,
              reason := "Test file for modified source" }
     else none) ++
  (if possibleTestPaths.length > 0 then
     [{ path := possibleTestPaths.headD "", type := "suggested",
        sourceFile := some sourceFile.path, language := sourceFile.language,
        confidence := 60, reason := "Suggested test file based on naming convention" }]
   else [])

/-- `TestAnalysisService._findRelatedTests` assembled over all source
files, in loop order. -/
def findRelatedTests (sourceFiles : List SourceFile) (allFiles : List ChangedFile) :
    List TestCandidate :=
  (sourceFiles.map fun sourceFile => relatedForSource sourceFile allFiles).flatten

/-- `TestAnalysisService._calculateCoverage`: 100 for no source files, else
the rounded percentage of `related`-type candidates over source files. -/
def calculateCoverage (sourceFiles : List SourceFile) (relatedTests : List TestCandidate) : Nat :=
  if sourceFiles.length = 0 then 100
  else
    let testedFiles := (relatedTests.filter fun t => t.type == "related").length
    natRound (testedFiles * 100) sourceFiles.length

/-- `TestAnalysisService._generateRecommendations`: a `missing_test` entry
for every source file whose path is not among the candidates'
`sourceFile` back-references. -/
def generateRecommendations (sourceFiles : List SourceFile)
    (relatedTests : List TestCandidate) : List Recommendation :=
  sourceFiles.filterMap fun sourceFile =>
    if relatedTests.any fun t => t.sourceFile == some sourceFile.path then none
    else
      some { rtype := "missing_test",
             severity := if sourceFile.changes > 50 then "high" else "medium",
             file := sourceFile.path,
             message := "No test file found for " ++ sourceFile.path,
             suggestion := "Create test at: " ++ (generateTestPaths sourceFile.path).headD "" }

/-- The per-file risk of `_analyzeRisk`: size buckets on
`changes || additions + deletions`, plus 10 for non-test files. -/
def fileRisk (f : ChangedFile) : Nat :=
  let changes := if f.changes ≠ 0 then f.changes else f.additions + f.deletions
  (if changes > 100 then 30 else if changes > 50 then 20 else if changes > 10 then 10 else 0) +
    (if !isTestFile f.filename then 10 else 0)

/-- `TestAnalysisService._analyzeRisk`: per-file risks (only positive ones
listed, each clamped to 100, sorted by risk descending) and the clamped
rounded mean risk. -/
def analyzeRisk (changedFiles : List ChangedFile) : RiskAnalysis :=
  let risks := changedFiles.filterMap fun f =>
    let changes := if f.changes ≠ 0 then f.changes else f.additions + f.deletions
    let risk := fileRisk f
    if risk > 0 then some { file := f.filename, risk := min risk 100, changes := changes }
    else none
  { totalRisk := min (natRound (changedFiles.map fileRisk).sum changedFiles.length) 100,
    risks := risks.mergeSort fun a b => decide (b.risk ≤ a.risk) }

/-- `TestAnalysisService.identifyTests`: the full analysis.  An empty
changed-file list short-circuits to `{identifiedTests: [], coverage: 0,
recommendations: []}`.  The JavaScript `[...new Set([...existingTests,
...relatedTests])]` deduplicates by object reference, and every element is
a freshly built object, so it is a plain concatenation. -/
def identifyTests (changedFiles : List ChangedFile) : AnalysisResult :=
  if changedFiles.length = 0 then
    { identifiedTests := [], coverage := 0, recommendations := [] }
  else
    let existingTests := identifyExistingTests changedFiles
    let sourceFiles := identifySourceFiles changedFiles
    let relatedTests := findRelatedTests sourceFiles changedFiles
    let coverage := calculateCoverage sourceFiles relatedTests
    let recommendations := generateRecommendations sourceFiles relatedTests
    let riskAnalysis := analyzeRisk changedFiles
    { identifiedTests := existingTests ++ relatedTests,
      existingTests := some existingTests,
      relatedTests := some relatedTests,
      sourceFiles := some sourceFiles,
      coverage := coverage,
      recommendations := recommendations,
      riskAnalysis := some riskAnalysis,
      statistics := some { totalFiles := changedFiles.length, sourceFiles := sourceFiles.length,
                           testFiles := existingTests.length, relatedTests := relatedTests.length } }

/-! ## TestAnalyzer (the background worker class).  Where the class defines
a method twice, the later definition overrides the earlier one, so the
overriding bodies of `globToRegex`, `getTestType` and
`identifyRelevantTests` are the effective ones and are what is embedded. -/

/-- The `estimatedMethods` property: the strict pass stores a number, the
alternative detection stores a list of method-name strings. -/
inductive MethodsInfo where
  | count (n : Nat)
  | names (l : List String)
deriving DecidableEq, Repr

/-- A test file found by `findExistingTests`. -/
structure FoundTest where
  fileName : String
  language : String
  framework : String
  ttype : String
  confidence : Nat
  reason : String
  estimatedMethods : MethodsInfo
deriving DecidableEq, Repr

/-- `TestAnalyzer.loadTestPatterns`: the hard-coded four-language table. -/
def loadTestPatterns : List LangPatterns := [
  { language := "javascript", extensions := ["js", "jsx", "mjs"],
    patterns := ["**/*.test.js", "**/*.spec.js", "**/test/**/*.js", "**/tests/**/*.js",
      "**/__tests__/**/*.js"],
    frameworks := ["jest", "mocha", "jasmine", "vitest"] },
  { language := "typescript", extensions := ["ts", "tsx"],
    patterns := ["**/*.test.ts", "**/*.spec.ts", "**/test/**/*.ts", "**/tests/**/*.ts",
      "**/__tests__/**/*.ts"],
    frameworks := ["jest", "mocha", "jasmine", "vitest"] },
  { language := "python", extensions := ["py"],
    patterns := ["**/test_*.py", "**/*_test.py", "**/tests/**/*.py", "**/test/**/*.py"],
    frameworks := ["pytest", "unittest", "nose2"] },
  { language := "java", extensions := ["java"],
    patterns := ["**/src/test/**/*.java", "**/*Test.java", "**/*Tests.java", "**/test/**/*.java"],
    frameworks := ["junit", "testng", "spock"] }]

/-- The language-indicator table of `detectProjectLanguages`, in object-key
order. -/
def languageIndicators : List (String × List String) := [
  ("javascript", [".js", "package.json", ".jsx"]),
  ("typescript", [".ts", ".tsx", "tsconfig.json"]),
  ("java", [".java", "pom.xml", "build.gradle"]),
  ("python", [".py", "requirements.txt", "setup.py", "pyproject.toml"]),
  ("csharp", [".cs", ".csproj", ".sln"]),
  ("go", [".go", "go.mod"]),
  ("php", [".php", "composer.json"])]

/-- `TestAnalyzer.detectProjectLanguages`: a language is detected when some
file path contains one of its indicator substrings; empty detection falls
back to javascript. -/
def detectProjectLanguages (files : List String) : List String :=
  let detected := languageIndicators.filterMap fun li =>
    if li.2.any fun indicator => files.any fun file => strContains file indicator
    then some li.1 else none
  if detected.length > 0 then detected else ["javascript"]

/-- `TestAnalyzer.calculateTestConfidence`: base 50 plus path-shape and
pattern-shape bonuses, capped at 95. -/
def calculateTestConfidence (fileName pattern : String) : Nat :=
  let c1 := 50 + (if strContains fileName ".test." || strContains fileName ".spec." then 30 else 0)
  let c2 := c1 + (if strContains fileName "/test/" || strContains fileName "/tests/" then 20 else 0)
  let c3 := c2 + (if strContains fileName "__tests__" then 25 else 0)
  let c4 := c3 + (if strContains pattern "**/*.test." || strContains pattern "**/*.spec." then 15
                  else 0)
  min c4 95

/-- The overriding `TestAnalyzer.getTestType`. -/
def getTestType (fileName : String) : String :=
  if strContains fileName "unit" then "unit"
  else if strContains fileName "integration" then "integration"
  else if strContains fileName "e2e" || strContains fileName "end-to-end" then "e2e"
  else "unit"

/-- `TestAnalyzer.estimateTestMethods`. -/
def estimateTestMethods (fileName : String) : Nat :=
  if strContains fileName "integration" then 5 * 2
  else if strContains fileName "e2e" then 5 * 3
  else 5

/-- `TestAnalyzer.getLanguageFromFile`: lowercased last dot-component
through a fixed extension map. -/
def getLanguageFromFile (fileName : String) : String :=
  let extension : List Char := lowerL ((splitOnChar '.' fileName.data).getLastD [])
  if extension == "js".data || extension == "jsx".data then "javascript"
  else if extension == "ts".data || extension == "tsx".data then "typescript"
  else if extension == "py".data then "python"
  else if extension == "java".data then "java"
  else if extension == "cs".data then "csharp"
  else if extension == "go".data then "go"
  else if extension == "php".data then "php"
  else "unknown"

/-- The indicator list of `findTestsAlternativeMethod`. -/
def testIndicators : List String :=
  ["test", "spec", "__tests__", "tests", "Test", "Spec", "Tests", "TESTS"]

/-- `TestAnalyzer.findTestsAlternativeMethod`: the substring-based fallback
detection with its narrowing "looks like a test file" validation. -/
def findTestsAlternativeMethod (files : List String) : List FoundTest :=
  files.filterMap fun file =>
    let fileName := lowerStr file
    let hasTestIndicator := testIndicators.any fun indicator =>
      strContains fileName (lowerStr indicator)
    if hasTestIndicator then
      let isLikelyTestFile :=
        strContains fileName ".test." || strContains fileName ".spec." ||
        strContains fileName "/test/" || strContains fileName "/tests/" ||
        strContains fileName "__tests__" ||
        strEndsWith fileName "test.js" || strEndsWith fileName "spec.js" ||
        strEndsWith fileName "test.ts" || strEndsWith fileName "spec.ts"
      if isLikelyTestFile then
        some { fileName := file, language := getLanguageFromFile file, framework := "unknown",
               ttype := "unit", confidence := 60,
               reason := "Alternative detection: contains test indicators",
               estimatedMethods := MethodsInfo.names ["test1", "test2", "test3"] }
      else none
    else none

/-- The strict pass of `TestAnalyzer.findExistingTests`: for each detected
language that has a pattern table, every file accepted by a compiled
pattern (the overriding, anchored `globToRegex`) becomes a found test. -/
def strictTestScan (files : List String) : List FoundTest :=
  ((detectProjectLanguages files).map fun language =>
    match loadTestPatterns.find? fun lp => lp.language == language with
    | none => []
    | some languageConfig =>
      (languageConfig.patterns.map fun pattern =>
        files.filterMap fun file =>
          if globTest2 pattern file then
            some { fileName := file, language := language,
                   framework := languageConfig.frameworks.headD "unknown",
                   ttype := getTestType file,
                   confidence := calculateTestConfidence file pattern,
                   reason := "Matches " ++ language ++ " test pattern: " ++ pattern,
                   estimatedMethods := MethodsInfo.count (estimateTestMethods file) }
          else none).flatten).flatten

/-- `TestAnalyzer.findExistingTests`: the strict pass, and the alternative
detection appended only when the strict pass found nothing at all. -/
def findExistingTests (files : List String) : List FoundTest :=
  let testFiles := strictTestScan files
  if testFiles.length = 0 then testFiles ++ findTestsAlternativeMethod files
  else testFiles

/-- JavaScript `s.replace(/\.[^/.]+$/, '')`: drop a final dot-extension
when the extension is nonempty and free of separators and further dots. -/
def removeExt (s : List Char) : List Char :=
  let rev := s.reverse
  let tail := rev.takeWhile fun c => c != '.' && c != '/'
  match rev.drop tail.length with
  | '.' :: restRev => if tail.isEmpty then s else restRev.reverse
  | _ => s

/-- `TestAnalyzer.areFilesRelated`: either basename (minus extension,
lowercased) contains the other. -/
def areFilesRelated (file1 file2 : String) : Bool :=
  let name1 := removeExt ((splitOnChar '/' file1.data).getLastD [])
  let name2 := removeExt ((splitOnChar '/' file2.data).getLastD [])
  containsL (lowerL name1) (lowerL name2) || containsL (lowerL name2) (lowerL name1)

/-- One element of `analyzeTests`' `codeChanges` input.  The overriding
`identifyRelevantTests` reads the path as `change.file || change.fileName`;
a single `fileName` field stands for that. -/
structure CodeChange where
  fileName : String
  addedLines : List String := []
  removedLines : List String := []
  modifiedFunctions : List String := []
deriving DecidableEq, Repr

/-- A relevance-scored test entry: the spread of a `FoundTest` with the
overridden `confidence`/`reason` and the added `relatedFile`. -/
structure RelevantTest where
  fileName : String
  language : String := "unknown"
  framework : String := "unknown"
  ttype : String := "unit"
  confidence : Nat
  reason : String := ""
  estimatedMethods : MethodsInfo := MethodsInfo.count 0
  relatedFile : String := ""
deriving DecidableEq, Repr

/-- The confidence computed per (changed file, test) pair by the overriding
`TestAnalyzer.identifyRelevantTests`: 90 when the test's path contains the
changed file's extension-stripped path, else 70 when it contains the
changed file's directory, else 60 when the basenames are related, else 0. -/
def pairScore (changedFile testFileName : String) : Nat :=
  let baseName := removeExt changedFile.data
  let directory := joinWith '/' (splitOnChar '/' changedFile.data).dropLast
  if containsL testFileName.data baseName then 90
  else if containsL testFileName.data directory then 70
  else if areFilesRelated changedFile testFileName then 60
  else 0

/-- The reason string paired with `pairScore`'s branches. -/
def pairReason (changedFile testFileName : String) : String :=
  let baseName := removeExt changedFile.data
  let directory := joinWith '/' (splitOnChar '/' changedFile.data).dropLast
  if containsL testFileName.data baseName then "Tests file with same name"
  else if containsL testFileName.data directory then "Tests in same directory"
  else if areFilesRelated changedFile testFileName then "Related functionality"
  else ""

/-- The pair scoring and filtering of the overriding
`identifyRelevantTests` for one code change: a pair is pushed exactly when
its confidence exceeds 50. -/
def relevantPairsFor (change : CodeChange) (existingTests : List FoundTest) : List RelevantTest :=
  existingTests.filterMap fun t =>
    let confidence := pairScore change.fileName t.fileName
    if confidence > 50 then
      some { fileName := t.fileName, language := t.language, framework := t.framework,
             ttype := t.ttype, confidence := confidence,
             reason := pairReason change.fileName t.fileName,
             estimatedMethods := t.estimatedMethods, relatedFile := change.fileName }
    else none

/-- All retained pairs, in push order. -/
def relevantPairs (codeChanges : List CodeChange) (existingTests : List FoundTest) :
    List RelevantTest :=
  (codeChanges.map fun change => relevantPairsFor change existingTests).flatten

/-- Core of `TestAnalyzer.removeDuplicateTests`: the `seen`-set filter that
keeps the first entry of each `fileName`. -/
def removeDupAux (seen : List String) : List RelevantTest → List RelevantTest
  | [] => []
  | t :: ts =>
    if seen.contains t.fileName then removeDupAux seen ts
    else t :: removeDupAux (t.fileName :: seen) ts

/-- `TestAnalyzer.removeDuplicateTests`: first-occurrence deduplication by
`fileName`.  The overriding `identifyRelevantTests` inlines the same
first-occurrence filter via `findIndex`. -/
def removeDuplicateTests (tests : List RelevantTest) : List RelevantTest :=
  removeDupAux [] tests

/-- The overriding (effective) `TestAnalyzer.identifyRelevantTests`: score
and filter all pairs, deduplicate by first occurrence, sort by confidence
descending (stable). -/
def identifyRelevantTests (codeChanges : List CodeChange) (existingTests : List FoundTest) :
    List RelevantTest :=
  let uniqueTests := removeDuplicateTests (relevantPairs codeChanges existingTests)
  uniqueTests.mergeSort fun a b => decide (b.confidence ≤ a.confidence)

/-- The object `TestAnalyzer.analyzeCoverage` returns. -/
structure CoverageAnalysis where
  estimated : Nat
  criticalPaths : Nat
  riskScore : Nat
  totalChangedLines : Nat
  totalChangedFiles : Nat
  testFilesCount : Nat
  testCoverage : String
deriving DecidableEq, Repr

/-- `TestAnalyzer.analyzeCoverage`: ratio of covered files (capped at the
file count), a bonus capped at 20 and a 95 ceiling when there are more
tests than changed files, and a risk score clamped to [0, 100]. -/
def analyzeCoverage (codeChanges : List CodeChange) (relevantTests : List RelevantTest) :
    CoverageAnalysis :=
  let totalChangedLines :=
    (codeChanges.map fun change => change.addedLines.length + change.removedLines.length).sum
  let totalChangedFiles := codeChanges.length
  let testFilesCount := relevantTests.length
  let estimatedCoverage :=
    if totalChangedFiles > 0 then
      let filesCovered := min testFilesCount totalChangedFiles
      let base := natRound (filesCovered * 100) totalChangedFiles
      if testFilesCount > totalChangedFiles then
        min 95 (base + min 20 ((testFilesCount - totalChangedFiles) * 5))
      else base
    else 0
  let criticalPaths := (codeChanges.filter fun change =>
    change.modifiedFunctions.any fun fn =>
      ["main", "init", "constructor", "setup"].contains (lowerStr fn)).length
  let riskScore :=
    (max 0 (min 100 ((100 : Int) - (estimatedCoverage : Int) + (criticalPaths : Int) * 10))).toNat
  { estimated := estimatedCoverage, criticalPaths := criticalPaths, riskScore := riskScore,
    totalChangedLines := totalChangedLines, totalChangedFiles := totalChangedFiles,
    testFilesCount := testFilesCount,
    testCoverage :=
      if estimatedCoverage ≥ 80 then "Excellent"
      else if estimatedCoverage ≥ 60 then "Good"
      else if estimatedCoverage ≥ 40 then "Fair"
      else "Poor" }

/-! ## The Test Path Generator contract as the specification words it
(§4.3), for comparison with `generateTestPaths` -/

/-- Replace the leftmost occurrence of a segment in a segment list. -/
def replaceFirstSeg (tgt rep : List Char) : List (List Char) → List (List Char)
  | [] => []
  | s :: ss => if s == tgt then rep :: ss else s :: replaceFirstSeg tgt rep ss

/-- Rule 7 of §4.3 as the specification words it: when the path contains a
segment exactly equal to `src`, the mirrors with the leftmost such segment
replaced by `test` and by `tests`; otherwise nothing. -/
def srcMirrorSpec (parts : List (List Char)) : List (List Char) :=
  if parts.contains "src".data then
    [joinWith '/' (replaceFirstSeg "src".data "test".data parts),
     joinWith '/' (replaceFirstSeg "src".data "tests".data parts)]
  else []

/-- The candidate list of §4.3 in its stated priority order: co-located
`.test.<ext>`, co-located `.spec.<ext>`, `__tests__` unchanged,
`__tests__` `.test` variant, `tests/` subdirectory, `test/` subdirectory,
then the `src`-segment mirrors of `srcMirrorSpec`. -/
def candidatePathsSpec (sourcePath : String) : List String :=
  let parts := splitOnChar '/' sourcePath.data
  let filename := parts.getLastD []
  let dir := joinWith '/' parts.dropLast
  let nameWithoutExt := joinWith '.' (splitOnChar '.' filename).dropLast
  let ext := (splitOnChar '.' filename).getLastD []
  ([dir ++ "/".data ++ nameWithoutExt ++ ".test.".data ++ ext,
    dir ++ "/".data ++ nameWithoutExt ++ ".spec.".data ++ ext,
    dir ++ "/__tests__/".data ++ filename,
    dir ++ "/__tests__/".data ++ nameWithoutExt ++ ".test.".data ++ ext,
    dir ++ "/tests/".data ++ filename,
    dir ++ "/test/".data ++ filename] ++ srcMirrorSpec parts).map fun l => ⟨l⟩

/-! ## Helper lemmas -/

/-- Rounding a ratio that is at most `k` yields at most `k`. -/
theorem natRound_le (a b k : Nat) (hb : 0 < b) (h : a ≤ k * b) : natRound a b ≤ k := by
  unfold natRound
  have h2 : 2 * a + b ≤ 2 * b * k + b := by nlinarith
  calc (2 * a + b) / (2 * b) ≤ (2 * b * k + b) / (2 * b) := Nat.div_le_div_right h2
    _ = k + b / (2 * b) := Nat.mul_add_div (by omega) k b
    _ = k := by rw [Nat.div_eq_of_lt (by omega)]; omega

/-- `jsIndexOf` misses exactly when the list does not contain the value. -/
theorem jsIndexOf_eq_none_iff (tgt : List Char) (parts : List (List Char)) :
    jsIndexOf tgt parts = none ↔ parts.contains tgt = false := by
  induction parts with
  | nil => simp [jsIndexOf]
  | cons s ss ih =>
    simp only [jsIndexOf, List.contains_cons]
    by_cases h : s = tgt
    · subst h; simp
    · have h1 : (s == tgt) = false := beq_eq_false_iff_ne.mpr h
      have h2 : (tgt == s) = false := beq_eq_false_iff_ne.mpr fun e => h e.symm
      simp [h1, h2, ih]

/-- When `jsIndexOf` finds an index, assigning at that index is replacing
the leftmost occurrence. -/
theorem jsIndexOf_setAt (tgt rep : List Char) (parts : List (List Char)) (i : Nat)
    (h : jsIndexOf tgt parts = some i) :
    setAt i rep parts = replaceFirstSeg tgt rep parts := by
  induction parts generalizing i with
  | nil => simp [jsIndexOf] at h
  | cons s ss ih =>
    by_cases hs : s = tgt
    · subst hs
      simp [jsIndexOf] at h
      subst h
      simp [setAt, replaceFirstSeg]
    · have h1 : (s == tgt) = false := beq_eq_false_iff_ne.mpr hs
      simp only [jsIndexOf, h1, Bool.false_eq_true, if_false] at h
      rcases Option.map_eq_some'.mp h with ⟨j, hj, hji⟩
      subst hji
      simp [setAt, replaceFirstSeg, h1, ih j hj]

/-- The code's `src`-mirror step equals the specification's leftmost
segment replacement. -/
theorem srcMirror_eq (parts : List (List Char)) : srcMirrorPaths parts = srcMirrorSpec parts := by
  unfold srcMirrorPaths srcMirrorSpec
  cases h : jsIndexOf "src".data parts with
  | none =>
    rw [(jsIndexOf_eq_none_iff _ _).mp h]
    simp
  | some i =>
    have hc : parts.contains "src".data = true := by
      by_contra hcf
      rw [Bool.not_eq_true, ← jsIndexOf_eq_none_iff, h] at hcf
      cases hcf
    show [joinWith '/' (setAt i "test".data parts), joinWith '/' (setAt i "tests".data parts)] = _
    rw [jsIndexOf_setAt "src".data "test".data parts i h,
      jsIndexOf_setAt "src".data "tests".data parts i h, hc]
    simp

/-- `pairScore` only takes the values 90, 70, 60 and 0. -/
theorem pairScore_cases (a b : String) :
    pairScore a b = 90 ∨ pairScore a b = 70 ∨ pairScore a b = 60 ∨ pairScore a b = 0 := by
  unfold pairScore
  by_cases h1 : containsL b.data (removeExt a.data) = true
  · simp [h1]
  · by_cases h2 : containsL b.data (joinWith '/' (splitOnChar '/' a.data).dropLast) = true
    · simp [h1, h2]
    · by_cases h3 : areFilesRelated a b = true
      · simp [h1, h2, h3]
      · simp [h1, h2, h3]

/-- The path generator never returns an empty list. -/
theorem generateTestPaths_ne_nil (p : String) : generateTestPaths p ≠ [] := by
  unfold generateTestPaths
  simp

/-- Every source file's block contains its `suggested` entry. -/
theorem relatedForSource_suggested (sourceFile : SourceFile) (allFiles : List ChangedFile) :
    ∃ t ∈ relatedForSource sourceFile allFiles, t.sourceFile = some sourceFile.path := by
  unfold relatedForSource
  refine ⟨{ path := (generateTestPaths sourceFile.path).headD "", type := "suggested",
            sourceFile := some sourceFile.path, language := sourceFile.language,
            confidence := 60, reason := "Suggested test file based on naming convention" },
          ?_, rfl⟩
  apply List.mem_append_right
  rw [if_pos (by simpa using List.length_pos.mpr (generateTestPaths_ne_nil sourceFile.path))]
  exact List.mem_singleton.mpr rfl

/-- Every source file has a candidate pointing back at it. -/
theorem findRelatedTests_suggested (sourceFiles : List SourceFile) (allFiles : List ChangedFile)
    (sf : SourceFile) (hmem : sf ∈ sourceFiles) :
    ∃ t ∈ findRelatedTests sourceFiles allFiles, t.sourceFile = some sf.path := by
  rcases relatedForSource_suggested sf allFiles with ⟨t, ht, hts⟩
  refine ⟨t, ?_, hts⟩
  unfold findRelatedTests
  exact List.mem_flatten.mpr ⟨relatedForSource sf allFiles,
    List.mem_map_of_mem _ hmem, ht⟩

/-- Nothing in a deduplicated list was already seen. -/
theorem removeDupAux_not_seen (seen : List String) (ts : List RelevantTest) :
    ∀ t ∈ removeDupAux seen ts, seen.contains t.fileName = false := by
  induction ts generalizing seen with
  | nil => intro t ht; simp [removeDupAux] at ht
  | cons u us ih =>
    intro t ht
    simp only [removeDupAux] at ht
    by_cases h : seen.contains u.fileName = true
    · rw [if_pos (by simpa using h)] at ht
      exact ih seen t ht
    · rw [if_neg (by simpa using h)] at ht
      rcases List.mem_cons.mp ht with rfl | htl
      · simpa using h
      · have h2 := ih (u.fileName :: seen) t htl
        simp only [List.contains_cons, Bool.or_eq_false_iff] at h2
        exact h2.2

/-- Deduplicated lists have pairwise distinct file names. -/
theorem removeDupAux_pairwise (seen : List String) (ts : List RelevantTest) :
    (removeDupAux seen ts).Pairwise fun a b => a.fileName ≠ b.fileName := by
  induction ts generalizing seen with
  | nil => simp [removeDupAux]
  | cons u us ih =>
    simp only [removeDupAux]
    split
    · exact ih seen
    · refine List.Pairwise.cons ?_ (ih _)
      intro b hb
      have h2 := removeDupAux_not_seen (u.fileName :: seen) us b hb
      simp only [List.contains_cons, Bool.or_eq_false_iff] at h2
      have := beq_eq_false_iff_ne.mp h2.1
      exact fun e => this e.symm

/-- Members of the source-file selection never pass the test-file check. -/
theorem identifySourceFiles_not_test (cfs : List ChangedFile) (sf : SourceFile)
    (h : sf ∈ identifySourceFiles cfs) : isTestFile sf.path = false := by
  unfold identifySourceFiles at h
  rcases List.mem_map.mp h with ⟨g, hg, rfl⟩
  rcases List.mem_filter.mp hg with ⟨_, hcond⟩
  simp only [Bool.and_eq_true, Bool.not_eq_true'] at hcond
  exact hcond.1

/-! ## Claim theorems -/

/-- Claim C1 (counterexample): on an empty changed-file list the analysis
does not fail, but its coverage field is 0, not the claimed 100. -/
theorem c1_empty_coverage_not_100 :
    (identifyTests []).coverage = 0 ∧ ¬ (identifyTests []).coverage = 100 := by
  decide

/-- Claim C1 (amended): an empty changed-file list yields the degenerate
result `{identifiedTests := [], coverage := 0, recommendations := []}` with
no source-file, risk or statistics fields, rather than failing. -/
theorem c1_empty_input_result :
    identifyTests [] =
      { identifiedTests := [], existingTests := none, relatedTests := none, sourceFiles := none,
        coverage := 0, recommendations := [], riskAnalysis := none, statistics := none } := by
  rfl

/-- Claim C2 (counterexample): with one source file and two of its
generated test paths among the changed files, the reported coverage is
200, outside [0, 100]. -/
theorem c2_coverage_can_exceed_100 :
    (identifyTests [⟨"src/a.js", 10, 0, 10⟩, ⟨"src/a.test.js", 1, 0, 1⟩,
        ⟨"src/a.spec.js", 1, 0, 1⟩]).coverage = 200 ∧
    ¬ (identifyTests [⟨"src/a.js", 10, 0, 10⟩, ⟨"src/a.test.js", 1, 0, 1⟩,
        ⟨"src/a.spec.js", 1, 0, 1⟩]).coverage ≤ 100 := by
  decide

/-- Claim C2 (amended): the risk score is always within [0, 100] (for the
nonempty inputs on which `_analyzeRisk` runs), and `TestAnalyzer`'s
coverage estimate and risk score are always within [0, 100]; only the
service's coverage percentage can escape the range. -/
theorem c2_risk_and_analyzer_bounds :
    (∀ (c : ChangedFile) (cf : List ChangedFile), (analyzeRisk (c :: cf)).totalRisk ≤ 100) ∧
    (∀ (ccs : List CodeChange) (rts : List RelevantTest),
        (analyzeCoverage ccs rts).estimated ≤ 100 ∧ (analyzeCoverage ccs rts).riskScore ≤ 100) := by
  constructor
  · intro c cf
    simp only [analyzeRisk]
    exact Nat.min_le_right _ _
  · intro ccs rts
    constructor
    · simp only [analyzeCoverage]
      split
      · split
        · exact le_trans (Nat.min_le_left _ _) (by norm_num)
        · apply natRound_le _ _ _ (by omega)
          have h := Nat.min_le_right rts.length ccs.length
          nlinarith
      · omega
    · simp only [analyzeCoverage]
      exact Int.toNat_le.mpr (max_le (by norm_num) (min_le_left _ _))

/-- Claim C3: a changed source file with no matching test yields no
recommendation at all (Scenario B gives `[]`, not one high-severity
entry), because `_findRelatedTests` pushes its `suggested` entry whenever
the generated path list is nonempty — which is always — so every source
file is counted as tested and `_generateRecommendations`' loop body is
unreachable. -/
theorem c3_missing_test_recommendations_unreachable :
    (identifyTests [⟨"src/a.js", 80, 0, 80⟩]).recommendations = [] ∧
    ∀ (sourceFiles : List SourceFile) (allFiles : List ChangedFile),
      generateRecommendations sourceFiles (findRelatedTests sourceFiles allFiles) = [] := by
  constructor
  · decide
  · intro sfs allFiles
    unfold generateRecommendations
    rw [List.filterMap_eq_nil_iff]
    intro sf hsf
    rcases findRelatedTests_suggested sfs allFiles sf hsf with ⟨t, ht, hts⟩
    rw [if_pos]
    exact List.any_eq_true.mpr ⟨t, ht, by simp [hts]⟩

/-- Claim C4: in the effective (overriding) pair scorer, a (changed file,
test file) pair is retained exactly when its score exceeds 30 — because
the code's literal threshold is 50 and the score only takes the values 0,
60, 70 and 90, the two thresholds coincide extensionally. -/
theorem c4_relevance_threshold (change : CodeChange) (t : FoundTest) :
    (relevantPairsFor change [t] ≠ [] ↔ 30 < pairScore change.fileName t.fileName) ∧
    (relevantPairsFor change [t] ≠ [] ↔ 50 < pairScore change.fileName t.fileName) := by
  rcases pairScore_cases change.fileName t.fileName with h | h | h | h <;>
    simp [relevantPairsFor, h]

/-- Claim C5: escaping dots after substituting `.*` for `**` makes the
compiled matcher demand a literal dot where `**` stood: the registry
pattern `**/*.test.js` compiles to `\.[^/]*/[^/]*\.test\.js`, which
rejects `a/foo.test.js` and `foo.test.js` although the specified glob
semantics accept both. -/
theorem c5_globstar_compilation_bug :
    globToRegexStr "**/*.test.js" = "\\.[^/]*/[^/]*\\.test\\.js".data ∧
    specGlobMatch "**/*.test.js" "a/foo.test.js" = true ∧
    specGlobMatch "**/*.test.js" "foo.test.js" = true ∧
    globTest "**/*.test.js" "a/foo.test.js" = false ∧
    globTest "**/*.test.js" "foo.test.js" = false ∧
    globTest2 "**/*.test.js" "a/foo.test.js" = false := by
  decide

/-- Claim C6 (counterexample): in the service's classifier the substring
fallback is per-file, not batch-gated: `v1.0/a.test.js` passes a strict
compiled pattern, yet `src/latest.js` — which passes none — is still
classified as a test file in the same batch through the substring
fallback. -/
theorem c6_fallback_despite_strict_match :
    isTestFilePatterns "v1.0/a.test.js" = true ∧
    isTestFilePatterns "src/latest.js" = false ∧
    (identifyExistingTests [⟨"v1.0/a.test.js", 1, 0, 1⟩, ⟨"src/latest.js", 1, 0, 1⟩]).map
        (fun t => t.path) = ["v1.0/a.test.js", "src/latest.js"] := by
  decide

/-- Claim C6 (amended): only `TestAnalyzer.findExistingTests` gates the
fallback on the whole batch — whenever its strict pattern pass finds
anything, the result is exactly the strict pass and no alternative
detection runs. -/
theorem c6_analyzer_batch_gate (files : List String) (h : strictTestScan files ≠ []) :
    findExistingTests files = strictTestScan files := by
  unfold findExistingTests
  rw [if_neg (by simpa using h)]

/-- Witness for `c6_analyzer_batch_gate` at a batch whose strict pass is
nonempty. -/
theorem c6_analyzer_batch_gate_witness :
    strictTestScan [".v/a.test.js"] ≠ [] ∧
    findExistingTests [".v/a.test.js"] = strictTestScan [".v/a.test.js"] :=
  ⟨by decide, c6_analyzer_batch_gate [".v/a.test.js"] (by decide)⟩

/-- Claim C7 (counterexample): `vendor/lib/test_helper.js` is classified
as a test file — role `test`, not `ignored` — because the test check runs
before any ignore-list consultation. -/
theorem c7_vendor_classified_as_test :
    (identifyExistingTests [⟨"vendor/lib/test_helper.js", 5, 0, 5⟩]).map (fun t => t.path) =
      ["vendor/lib/test_helper.js"] := by
  decide

/-- Claim C7 (amended): the ignore-list lives only in `_isCodeFile`, so a
vendored test-looking path is classified as an existing test with
confidence 1.0 and merely excluded from the source-file role. -/
theorem c7_ignore_list_only_gates_source_role :
    isTestFile "vendor/lib/test_helper.js" = true ∧
    isCodeFile "vendor/lib/test_helper.js" = false ∧
    identifyExistingTests [⟨"vendor/lib/test_helper.js", 5, 0, 5⟩] =
      [{ path := "vendor/lib/test_helper.js", type := "existing", language := "javascript",
         confidence := 100, reason := "Direct test file modification" }] ∧
    identifySourceFiles [⟨"vendor/lib/test_helper.js", 5, 0, 5⟩] = [] := by
  decide

/-- Claim C8 (counterexample): the assembled result applies no
testPath-based deduplication: the same path listed twice among the changed
files yields two `existing` candidates with the same path, and a source
file whose test is also changed yields `existing`, `related` and
`suggested` candidates all for that one test path. -/
theorem c8_duplicate_candidates :
    ((identifyTests [⟨"src/a.test.js", 1, 0, 1⟩, ⟨"src/a.test.js", 1, 0, 1⟩]).identifiedTests.filter
        (fun t => t.path == "src/a.test.js" && t.type == "existing")).length = 2 ∧
    ((identifyTests [⟨"src/a.js", 10, 0, 10⟩,
        ⟨"src/a.test.js", 1, 0, 1⟩]).identifiedTests.filter
        (fun t => t.path == "src/a.test.js")).map (fun t => (t.type, t.confidence)) =
      [("existing", 100), ("related", 90), ("suggested", 60)] := by
  decide

/-- Claim C8 (amended): the service concatenates existing and related
candidates without testPath deduplication, while `TestAnalyzer`'s
`removeDuplicateTests` deduplicates by fileName keeping the
first-encountered entry — not the maximum-confidence one, as its output on
a 60-confidence entry followed by a 90-confidence duplicate shows. -/
theorem c8_dedup_behavior :
    (∀ (c : ChangedFile) (cf : List ChangedFile),
        (identifyTests (c :: cf)).identifiedTests =
          identifyExistingTests (c :: cf) ++
            findRelatedTests (identifySourceFiles (c :: cf)) (c :: cf)) ∧
    (∀ tests : List RelevantTest,
        (removeDuplicateTests tests).Pairwise fun a b => a.fileName ≠ b.fileName) ∧
    removeDuplicateTests
        [{ fileName := "t.js", confidence := 60 }, { fileName := "t.js", confidence := 90 }] =
      [{ fileName := "t.js", confidence := 60 }] := by
  refine ⟨fun c cf => rfl, fun tests => removeDupAux_pairwise [] tests, by decide⟩

/-- Claim C9: `_generateTestPaths` returns exactly the specification's
candidate list: the six convention paths in the stated priority order,
then — exactly when some segment equals `src` — the mirrors replacing the
leftmost such segment by `test` and by `tests`. -/
theorem c9_generator_matches_spec (p : String) :
    generateTestPaths p = candidatePathsSpec p := by
  simp only [generateTestPaths, candidatePathsSpec, srcMirror_eq]

/-- Claim C10: any changed file whose lowercased path contains "test" or
"spec" anywhere — even inside a longer word — is treated as a test file:
`_isTestFile` accepts it regardless of the glob patterns, it never appears
among the source files, and it is emitted as an `existing` candidate with
confidence 1.0. -/
theorem c10_substring_indicator_classification (f : ChangedFile) (cfs : List ChangedFile)
    (hsub : strContains (lowerStr f.filename) "test" = true ∨
      strContains (lowerStr f.filename) "spec" = true)
    (hmem : f ∈ cfs) :
    isTestFile f.filename = true ∧
    (∀ sf ∈ identifySourceFiles cfs, sf.path ≠ f.filename) ∧
    ∃ tc ∈ identifyExistingTests cfs,
      tc.path = f.filename ∧ tc.type = "existing" ∧ tc.confidence = 100 := by
  have htest : isTestFile f.filename = true := by
    unfold isTestFile
    rcases hsub with h | h <;> simp [h]
  refine ⟨htest, ?_, ?_⟩
  · intro sf hsf heq
    have hnot := identifySourceFiles_not_test cfs sf hsf
    rw [heq, htest] at hnot
    cases hnot
  · have hcand : ({ path := f.filename, type := "existing",
                      language := detectLanguage f.filename, confidence := 100,
                      reason := "Direct test file modification" } : TestCandidate) ∈
        identifyExistingTests cfs := by
      unfold identifyExistingTests
      exact List.mem_filterMap.mpr ⟨f, hmem, by rw [if_pos htest]⟩
    exact ⟨_, hcand, rfl, rfl, rfl⟩

/-- Witness for `c10_substring_indicator_classification` at
`src/latest.js`, whose lowercased path contains "test" inside "latest". -/
theorem c10_substring_indicator_witness :
    strContains (lowerStr "src/latest.js") "test" = true ∧
    (isTestFile "src/latest.js" = true ∧
      (∀ sf ∈ identifySourceFiles [⟨"src/latest.js", 3, 1, 4⟩], sf.path ≠ "src/latest.js") ∧
      ∃ tc ∈ identifyExistingTests [⟨"src/latest.js", 3, 1, 4⟩],
        tc.path = "src/latest.js" ∧ tc.type = "existing" ∧ tc.confidence = 100) :=
  ⟨by decide,
    c10_substring_indicator_classification ⟨"src/latest.js", 3, 1, 4⟩ [⟨"src/latest.js", 3, 1, 4⟩]
      (Or.inl (by decide)) (List.mem_singleton.mpr rfl)⟩
